import Mathlib

/-!
Verification development for the RadarCol risk-scoring engine.

Shallow embedding of the scoring, fusion, tiering, retry, attribution and
caching logic of the repository:
  * `RadarCol.Analyzer`  — app/core/analyzer.py   (class RadarColInferencia)
  * `RadarCol.Engine`    — src/motor/engine.py    (class RadarColInferencia)
  * `RadarCol.Cache`     — app/services/cache_service.py (class CacheService)
  * `RadarCol.Service`   — app/services/contract_service.py (class ContractService)

Python floats are modelled as exact rationals (ℚ); timestamps as natural
numbers; the external model artifacts (IsolationForest, SHAP explainer,
sentence embedder, LLM client) as optional abstract functions whose
presence/absence and per-call outcome (value or raised exception, modelled
as `Option`) is part of the state, exactly mirroring the `try/except` and
truthiness branches of the source.
-/

set_option linter.unusedVariables false

namespace RadarCol

/-- Entity statistics entry: an element of `stats_entidades`
(`{"media": ..., "std": ...}`). -/
structure Stats where
  media : ℚ
  std : ℚ
deriving DecidableEq, Repr

/-- A contract record as consumed by `_preprocesar`: the fields actually read
from the `contrato` dict.  The description enters the feature computation only
through its length (`len(objeto)`), so it is carried as a length. -/
structure Contrato where
  valorDelContrato : ℚ
  objetoLen : ℕ
  nitEntidad : String
  duracionDias : ℚ
  indiceDependencia : ℚ
  anioFirma : ℤ
  mesFirma : ℤ
deriving DecidableEq, Repr

/-- The hard-coded fallback statistics `{"media": 50000000, "std": 20000000}`. -/
def fallbackStats : Stats := ⟨50000000, 20000000⟩

/-- Models `np.clip(x, 0, 1)`. -/
def clip01 (x : ℚ) : ℚ := min (max x 0) 1

/-- Python's `round(x, d)` modelled on ℚ.  (Python rounds ties to even; the
tie-breaking mode is immaterial to every property proved below, which only
uses `roundTo d 1 = 1` and sortedness preserved after rounding.) -/
def roundTo (d : ℕ) (x : ℚ) : ℚ := (round (x * 10 ^ d) : ℤ) / 10 ^ d

/-- Models `round(x, 2)`. -/
def round2 (x : ℚ) : ℚ := roundTo 2 x

/-- Models `round(x, 4)`. -/
def round4 (x : ℚ) : ℚ := roundTo 4 x

/-- The fixed feature-column list `columnas_modelo` (identical in both
analyzer.py and engine.py). -/
def columnas_modelo : List String :=
  ["Z-Score Valor", "Valor Logaritmo", "Costo por Caracter",
   "Indice Dependencia Proveedor", "Pct Tiempo Adicionado",
   "Duracion Dias", "Dias tras Firma", "Anio Firma", "Mes Firma"]

namespace Analyzer

/-- Loaded-instance state of `app.core.analyzer.RadarColInferencia` after
`__init__`.  `isoForest` is `none` when the artifact failed to load
(degraded mode sets it to `None`); when present, its per-contract outcome is
`none` when `decision_function` raises (the inner `try/except`) and
`some raw` otherwise.  `shapExplainer`'s outcome is `none` when
`shap_values` raises.  `semDist` is the Euclidean distance
`np.linalg.norm(emb - centroide)` for the contract's description, `none`
when the embedding computation raises. -/
structure RadarColInferencia where
  isoForest : Option (Contrato → Option ℚ)
  modoSoloLLM : Bool
  statsEntidades : List (String × Stats)
  usarShap : Bool
  shapExplainer : Contrato → Option (List ℚ)
  modelNlp : Bool
  hasCentroide : Bool
  semDist : Contrato → Option ℚ

/-- Entity-statistics lookup of `_preprocesar` (analyzer.py lines 114-122):
degraded mode or empty table uses the fallback; otherwise look up the NIT,
then the `"default"` key, then the fallback. -/
def entityStats (m : RadarColInferencia) (nit : String) : Stats :=
  if m.modoSoloLLM || m.statsEntidades.isEmpty then fallbackStats
  else
    match m.statsEntidades.lookup nit with
    | some s => s
    | none => (m.statsEntidades.lookup "default").getD fallbackStats

/-- The `"Z-Score Valor"` feature: `(valor - media) / std` with the
zero-std guard `std if std > 0 else 1.0` (analyzer.py lines 124-125). -/
def zScore (m : RadarColInferencia) (c : Contrato) : ℚ :=
  let stats := entityStats m c.nitEntidad
  let std := if stats.std > 0 then stats.std else 1
  (c.valorDelContrato - stats.media) / std

/-- The `"Costo por Caracter"` feature: `valor / (len(objeto) + 1)`. -/
def costoPorCaracter (c : Contrato) : ℚ :=
  c.valorDelContrato / ((c.objetoLen : ℚ) + 1)

/-- Statistical-score branch of `analizar_contrato_ml_solo`
(lines 257-271), before the veto: returns `(risk_ml, score_raw)`.
Normal mode maps the raw decision value through the fixed linear
normalization with clamping; the exception fallback and the degraded branch
both use `min(|z| / 5, 1)` with `score_raw = -risk_ml`. -/
def riskMlBranch (m : RadarColInferencia) (c : Contrato) : ℚ × ℚ :=
  match m.isoForest, m.modoSoloLLM with
  | some f, false =>
    match f c with
    | some scoreRaw =>
        (clip01 (1 - ((scoreRaw - (-(1/2))) / ((1/2) - (-(1/2))))), scoreRaw)
    | none =>
        let r := min (|zScore m c| / 5) 1
        (r, -r)
  | _, _ =>
      let r := min (|zScore m c| / 5) 1
      (r, -r)

/-- Final statistical sub-score `risk_ml`, after the veto of lines 273-275:
`if features["Z-Score Valor"] > 3: risk_ml = 1.0`. -/
def risk_ml (m : RadarColInferencia) (c : Contrato) : ℚ :=
  if zScore m c > 3 then 1 else (riskMlBranch m c).1

/-- The internal `score_raw` variable. -/
def score_raw (m : RadarColInferencia) (c : Contrato) : ℚ :=
  (riskMlBranch m c).2

/-- Semantic sub-score `risk_nlp` (lines 277-293): initialized to `0.0`,
recomputed only when `self.model_nlp and hasattr(self, 'centroide')`;
an exception while computing embeddings resets it to `0.0`. -/
def risk_nlp (m : RadarColInferencia) (c : Contrato) : ℚ :=
  if m.modelNlp && m.hasCentroide then
    match m.semDist c with
    | some dist => clip01 (dist / 2)
    | none => 0
  else 0

/-- SHAP step (lines 297-305): one `{"variable": col, "valor": val}` pair per
zipped column, in `columnas_modelo` order; empty when `usar_shap` is false or
the explainer raises (`except: pass`). -/
def shap_values (m : RadarColInferencia) (c : Contrato) : List (String × ℚ) :=
  if m.usarShap then
    match m.shapExplainer c with
    | some sv => columnas_modelo.zip sv
    | none => []
  else []

/-- Score fusion (lines 307-314): `risk_ml * 0.7 + risk_nlp * 0.3` when
`self.model_nlp` is truthy, else `risk_ml` alone. -/
def score_combinado (m : RadarColInferencia) (c : Contrato) : ℚ :=
  if m.modelNlp then risk_ml m c * (7/10) + risk_nlp m c * (3/10)
  else risk_ml m c

/-- Tier assignment (lines 316-324). -/
def nivelDeRiesgo (s : ℚ) : String :=
  if s ≥ 7/10 then "CRÍTICO"
  else if s ≥ 1/2 then "ALTO"
  else if s ≥ 3/10 then "MEDIO"
  else "BAJO"

/-- The `Meta_Data` block of the returned dict (lines 326-336). -/
structure MetaData where
  score : ℚ
  riesgo : String
  scoreIsolationForest : ℚ
  scoreNlpEmbeddings : ℚ
  rawIsolationForest : Option ℚ
  distanciaSemantica : ℚ
deriving DecidableEq, Repr

/-- Return value of `analizar_contrato_ml_solo` (the `Analisis_LLM` slot is
always `None` on this fast path and is omitted). -/
structure Resultado where
  metaData : MetaData
  detalleShap : List (String × ℚ)
deriving DecidableEq, Repr

/-- The method `analizar_contrato_ml_solo` (analyzer.py lines 252-337).  Note
`Raw_IsolationForest` is `float(score_raw) if self.iso_forest else None`:
in degraded mode the raw value is not exposed. -/
def analizar_contrato_ml_solo (m : RadarColInferencia) (c : Contrato) : Resultado :=
  { metaData :=
    { score := score_combinado m c
      riesgo := nivelDeRiesgo (score_combinado m c)
      scoreIsolationForest := risk_ml m c
      scoreNlpEmbeddings := risk_nlp m c
      rawIsolationForest := if m.isoForest.isSome then some (score_raw m c) else none
      distanciaSemantica := risk_nlp m c * 2 }
    detalleShap := shap_values m c }

/-- Models Python's `sub in s` on character lists. -/
def listHasSub (sub : List Char) : List Char → Bool
  | [] => sub.isEmpty
  | c :: rest => sub.isPrefixOf (c :: rest) || listHasSub sub rest

/-- Models Python's `sub in s` for strings. -/
def contiene (sub s : String) : Bool := listHasSub sub.toList s.toList

/-- Models Python's `str.lower()`: character-wise lowercasing. -/
def aMinusculas (s : String) : String := String.mk (s.toList.map Char.toLower)

/-- The rate-limit test of `_generar_con_retry` (analyzer.py line 163):
`"429" in err or "rate" in err.lower()`. -/
def es_rate_limit (err : String) : Bool :=
  contiene "429" err || contiene "rate" (aMinusculas err)

/-- Outcome of one call to the Groq chat-completions API: the returned
message content, or the string of the raised exception. -/
inductive ApiOutcome where
  | success (content : String)
  | failure (err : String)
deriving DecidableEq, Repr

/-- Observable trace of `_generar_con_retry`: the returned value, the
sequence of `time.sleep` waits performed (in seconds, in order), and the
number of API attempts made. -/
structure RetryTrace where
  result : Option String
  waits : List ℕ
  attemptsMade : ℕ
deriving DecidableEq, Repr

/-- One unrolling of the `for i in range(3)` loop of `_generar_con_retry`
(analyzer.py lines 148-170), parameterized by the per-attempt outcome:
success returns immediately; a rate-limit failure sleeps `12 + i * 8` and
continues; any other failure `break`s; exhausting the range returns `None`. -/
def retryRun (attempts : ℕ → ApiOutcome) : ℕ → ℕ → RetryTrace
  | _, 0 => ⟨none, [], 0⟩
  | i, fuel + 1 =>
    match attempts i with
    | .success s => ⟨some s, [], 1⟩
    | .failure e =>
      if es_rate_limit e then
        let t := retryRun attempts (i + 1) fuel
        ⟨t.result, (12 + i * 8) :: t.waits, t.attemptsMade + 1⟩
      else ⟨none, [], 1⟩

/-- The method `_generar_con_retry`: the loop entered at `i = 0` with 3 attempts. -/
def generar_con_retry (attempts : ℕ → ApiOutcome) : RetryTrace :=
  retryRun attempts 0 3

/-- Parsed LLM narrative: the `{resumen, factores, recomendaciones}` shape.
The `str(x)` coercions of lines 241-242 are reflected in the field types
already being plain strings. -/
structure Narrativa where
  resumen : String
  factores : List String
  recomendaciones : List String
deriving DecidableEq, Repr

/-- The fixed emergency fallback narrative (analyzer.py lines 245-250). -/
def fallbackNarrativa : Narrativa :=
  { resumen := "Análisis completado. Revise los indicadores numéricos."
    factores := ["Análisis matemático completado"]
    recomendaciones := ["Validación manual"] }

/-- Tail of `_generar_analisis_ia` (analyzer.py lines 236-250): run the
retried call, then the tolerant JSON extraction `_limpiar_json_llm`
(regex + `json.loads`, abstracted as the `limpiarJson` parameter; it
returns `None` on unparsable text); any failure yields the canned
fallback. -/
def generar_analisis_ia (limpiarJson : String → Option Narrativa)
    (attempts : ℕ → ApiOutcome) : Narrativa :=
  match (generar_con_retry attempts).result with
  | some raw =>
    match limpiarJson raw with
    | some data => data
    | none => fallbackNarrativa
  | none => fallbackNarrativa

end Analyzer

namespace Engine

/-- Loaded-instance state of `motor.engine.RadarColInferencia`.  Unlike the
app analyzer, the engine has no degraded-mode flag and no `try/except`
around `decision_function` or `shap_values`, so when the artifacts are
present those calls are modelled as total.  `modelNlp`, when present,
yields the semantic distance `np.linalg.norm(emb - c)` for a contract. -/
structure RadarColInferencia where
  isoForest : Option (Contrato → ℚ)
  statsEntidades : List (String × Stats)
  usarShap : Bool
  shapVals : Contrato → List ℚ
  modelNlp : Option (Contrato → ℚ)

/-- Entity lookup of engine `_preprocesar` (engine.py lines 71-72):
`stats_entidades.get(nit, fallback_stats)`. -/
def entityStats (em : RadarColInferencia) (nit : String) : Stats :=
  (em.statsEntidades.lookup nit).getD fallbackStats

/-- Engine z-score (engine.py line 73):
`(valor - media) / (std + 1e-9)`. -/
def zScore (em : RadarColInferencia) (c : Contrato) : ℚ :=
  let stats := entityStats em c.nitEntidad
  (c.valorDelContrato - stats.media) / (stats.std + 1/1000000000)

/-- Engine statistical score before the veto (engine.py lines 266-270):
default `0.95`, replaced by the clipped linear normalization of the raw
decision value when the model is loaded. -/
def risk_ml_base (em : RadarColInferencia) (c : Contrato) : ℚ :=
  match em.isoForest with
  | some f => clip01 (1 - ((f c - (-(1/2))) / ((1/2) - (-(1/2)))))
  | none => 19/20

/-- Engine statistical score after the veto of line 272:
`if features["Z-Score Valor"] > 3: risk_ml = 1.0`. -/
def risk_ml (em : RadarColInferencia) (c : Contrato) : ℚ :=
  if zScore em c > 3 then 1 else risk_ml_base em c

/-- Engine raw IsolationForest output (`None` when the model is absent). -/
def score_raw_iforest (em : RadarColInferencia) (c : Contrato) : Option ℚ :=
  em.isoForest.map fun f => f c

/-- Engine semantic score (lines 275-281): default `0.5`; when the NLP
model is present, `clip(dist / 1.2, 0, 1)`. -/
def risk_nlp (em : RadarColInferencia) (c : Contrato) : ℚ :=
  match em.modelNlp with
  | some g => clip01 (g c / (6/5))
  | none => 1/2

/-- Engine semantic distance (`None` when the NLP model is absent). -/
def distancia_semantica (em : RadarColInferencia) (c : Contrato) : Option ℚ :=
  em.modelNlp.map fun g => g c

/-- Engine fused score (line 283): `(risk_ml * 0.5) + (risk_nlp * 0.5)`. -/
def indice_final (em : RadarColInferencia) (c : Contrato) : ℚ :=
  risk_ml em c * (1/2) + risk_nlp em c * (1/2)

/-- Engine tier assignment (line 284):
`"CRÍTICO" if indice_final > 0.8 else "ALTO" if indice_final > 0.5 else "BAJO"`. -/
def nivel_alerta (s : ℚ) : String :=
  if s > 4/5 then "CRÍTICO" else if s > 1/2 then "ALTO" else "BAJO"

/-- Descending-by-absolute-weight order on `{variable, peso}` pairs, the key
of `sorted(datos_grafica, key=lambda x: abs(x['peso']), reverse=True)`. -/
def pesoGe (a b : String × ℚ) : Prop := |b.2| ≤ |a.2|

instance : DecidableRel pesoGe := fun a b =>
  inferInstanceAs (Decidable (|b.2| ≤ |a.2|))

instance : IsTotal (String × ℚ) pesoGe := ⟨fun a b => le_total |b.2| |a.2|⟩

instance : IsTrans (String × ℚ) pesoGe := ⟨fun _ _ _ h1 h2 => le_trans h2 h1⟩

/-- Engine SHAP block (lines 286-307): when the explainer and the model are
both loaded, one `{variable, peso: round(val, 4)}` pair per column, sorted
by absolute weight descending (Python `sorted` is stable; so is
`insertionSort`); the empty list otherwise. -/
def datos_grafica (em : RadarColInferencia) (c : Contrato) : List (String × ℚ) :=
  if em.usarShap && em.isoForest.isSome then
    List.insertionSort pesoGe
      ((columnas_modelo.zip (em.shapVals c)).map fun p => (p.1, round4 p.2))
  else []

/-- The `Meta_Data` block of the engine response (lines 332-348). -/
structure MetaData where
  riesgo : String
  score : ℚ
  scoreIsolationForest : ℚ
  scoreNlpEmbeddings : ℚ
  isolationForestRaw : Option ℚ
  distanciaSemantica : Option ℚ
deriving DecidableEq, Repr

/-- Engine per-contract response: the analysis fields relevant here
(the LLM narrative slot is handled by the Analyzer namespace's model). -/
structure Resultado where
  metaData : MetaData
  detalleShap : List (String × ℚ)
deriving DecidableEq, Repr

/-- The method `analizar_contrato` (engine.py lines 262-349), scoring and SHAP parts. -/
def analizar_contrato (em : RadarColInferencia) (c : Contrato) : Resultado :=
  { metaData :=
    { riesgo := nivel_alerta (indice_final em c)
      score := round2 (indice_final em c)
      scoreIsolationForest := round4 (risk_ml em c)
      scoreNlpEmbeddings := round4 (risk_nlp em c)
      isolationForestRaw := (score_raw_iforest em c).map round4
      distanciaSemantica := (distancia_semantica em c).map round4 }
    detalleShap := datos_grafica em c }

end Engine

namespace Cache

/-- JSON values as they occur in the filter dictionaries passed to
`generate_filter_hash` (strings, integers, booleans, null). -/
inductive JVal where
  | str (s : String)
  | int (n : ℤ)
  | boolean (b : Bool)
  | null
deriving DecidableEq, Repr

/-- Serialization of a single JSON value as `json.dumps` renders it. -/
def dumpsJVal : JVal → String
  | .str s => "\"" ++ s ++ "\""
  | .int n => toString n
  | .boolean true => "true"
  | .boolean false => "false"
  | .null => "null"

/-- Key order used by `json.dumps(..., sort_keys=True)`. -/
def keyLe (a b : String × JVal) : Prop := a.1 ≤ b.1

instance : DecidableRel keyLe := fun a b =>
  inferInstanceAs (Decidable (a.1 ≤ b.1))

instance : IsTotal (String × JVal) keyLe := ⟨fun a b => le_total a.1 b.1⟩

instance : IsTrans (String × JVal) keyLe := ⟨fun _ _ _ h1 h2 => le_trans h1 h2⟩

/-- Models `json.dumps(filters, sort_keys=True)`: serialize the key/value pairs
with keys in sorted order.  A dict is modelled as its insertion-ordered
association list (keys distinct). -/
def dumpsSortKeys (filters : List (String × JVal)) : String :=
  "\x7b" ++
    String.intercalate ", "
      ((List.insertionSort keyLe filters).map fun p =>
        "\"" ++ p.1 ++ "\": " ++ dumpsJVal p.2) ++
  "\x7d"

/-- The method `generate_filter_hash` (cache_service.py lines 63-68): the MD5 hex
digest of the canonical (sorted-key) serialization.  MD5 itself is an
opaque deterministic digest; it is abstracted as the function argument
`md5Hex`, applied exactly as the source applies `hashlib.md5(...).hexdigest()`. -/
def generate_filter_hash (md5Hex : String → String)
    (filters : List (String × JVal)) : String :=
  md5Hex (dumpsSortKeys filters)

/-- Stored row of the `estadisticas_globales` table (minus key/expiration). -/
structure EstadisticasRow where
  filtroDescripcion : String
  totalContratos : ℕ
  contratosAltoRiesgo : ℕ
  contratosMedioRiesgo : ℕ
  contratosBajoRiesgo : ℕ
  porcentajeAltoRiesgo : ℚ
  montoTotalCop : ℚ
deriving DecidableEq, Repr

/-- The six columns selected by `get_estadisticas_cached`. -/
structure EstadisticasSelect where
  totalContratos : ℕ
  contratosAltoRiesgo : ℕ
  contratosMedioRiesgo : ℕ
  contratosBajoRiesgo : ℕ
  porcentajeAltoRiesgo : ℚ
  montoTotalCop : ℚ
deriving DecidableEq, Repr

/-- Projection of a stored row onto the columns the read returns. -/
def seleccionarEstadisticas (r : EstadisticasRow) : EstadisticasSelect :=
  ⟨r.totalContratos, r.contratosAltoRiesgo, r.contratosMedioRiesgo,
   r.contratosBajoRiesgo, r.porcentajeAltoRiesgo, r.montoTotalCop⟩

/-- Stored row of `contratos_analisis_ligero` (minus key/expiration). -/
structure LigeroRow where
  nombreEntidad : String
  valorContrato : ℚ
  fechaInicio : String
  nivelRiesgo : String
  anomalia : ℚ
  scoreIsolationForest : Option ℚ
  scoreNlpEmbeddings : Option ℚ
deriving DecidableEq, Repr

/-- Stored row of `contratos_analisis_detallado` (minus key/expiration).
The `factores`/`recomendaciones`/`shap_values` columns are stored
JSON-encoded in the backing table and round-trip structurally; `meta_data`
is carried as its JSON text. -/
structure DetalladoRow where
  resumenEjecutivo : String
  factoresPrincipales : List String
  recomendaciones : List String
  shapValues : List (String × ℚ)
  scoreFinal : ℚ
  scoreIsolationForest : ℚ
  scoreNlpEmbeddings : ℚ
  isolationForestRaw : ℚ
  distanciaSemantica : ℚ
  metaDataJson : String
  duracionAnalisisMs : ℕ
deriving DecidableEq, Repr

/-- State of the `CacheService` singleton: whether `_conn` is live, and the
three backing tables, each a list of (key, payload, expiration) rows.
Timestamps are natural numbers (the ISO-formatted `datetime` strings of the
source compare chronologically for a fixed format, so the string comparison
`fecha_expiracion > now` is order-isomorphic to `<` on instants). -/
structure CacheState where
  enabled : Bool
  estadisticasGlobales : List (String × EstadisticasRow × ℕ)
  analisisLigero : List (String × LigeroRow × ℕ)
  analisisDetallado : List (String × DetalladoRow × ℕ)
deriving DecidableEq, Repr

/-- TTL configuration: the `CACHE_TTL_*` environment overrides with the
defaults `{"stats": 1, "ligero": 7, "detallado": 7}` already resolved. -/
structure CacheConfig where
  ttlStats : ℕ
  ttlLigero : ℕ
  ttlDetallado : ℕ
deriving DecidableEq, Repr

/-- The method `_get_ttl_days` (lines 51-55), with the environment resolved into the
config. -/
def get_ttl_days (cfg : CacheConfig) (tipo : String) : ℕ :=
  if tipo = "stats" then cfg.ttlStats
  else if tipo = "ligero" then cfg.ttlLigero
  else if tipo = "detallado" then cfg.ttlDetallado
  else 7

/-- The method `_calculate_expiration` (lines 57-61): `now + timedelta(days=ttl)`. -/
def calculate_expiration (cfg : CacheConfig) (tipo : String) (now : ℕ) : ℕ :=
  now + get_ttl_days cfg tipo

/-- The method `_connect` (lines 30-44): with a missing URL or auth token the
connection is never attempted and `_conn` stays `None`; a connection
exception also leaves `_conn = None`.  `conexionOk` models whether
`libsql.connect` succeeds. -/
def connect_cache (url authToken : Option String) (conexionOk : Bool) : CacheState :=
  match url, authToken with
  | some _, some _ =>
      if conexionOk then ⟨true, [], [], []⟩ else ⟨false, [], [], []⟩
  | _, _ => ⟨false, [], [], []⟩

/-- Models `SELECT ... WHERE key = ? AND fecha_expiracion > ? LIMIT 1` over a
table: the first row whose key matches and whose expiration is strictly in
the future. -/
def cacheLookup {α : Type} (rows : List (String × α × ℕ)) (key : String)
    (now : ℕ) : Option α :=
  match rows.find? (fun r => r.1 == key && decide (now < r.2.2)) with
  | some r => some r.2.1
  | none => none

/-- Models `INSERT OR REPLACE` keyed on the first column: any prior row with the
same key is superseded. -/
def cacheUpsert {α : Type} (rows : List (String × α × ℕ)) (key : String)
    (payload : α) (exp : ℕ) : List (String × α × ℕ) :=
  (key, payload, exp) :: rows.filter fun r => !(r.1 == key)

/-- The method `get_estadisticas_cached` (lines 72-105). -/
def get_estadisticas_cached (st : CacheState) (filtroHash : String)
    (now : ℕ) : Option EstadisticasSelect :=
  if st.enabled then
    (cacheLookup st.estadisticasGlobales filtroHash now).map seleccionarEstadisticas
  else none

/-- The method `save_estadisticas` (lines 107-142). -/
def save_estadisticas (cfg : CacheConfig) (st : CacheState) (now : ℕ)
    (filtroHash : String) (row : EstadisticasRow) : CacheState :=
  if st.enabled then
    { st with
        estadisticasGlobales :=
          cacheUpsert st.estadisticasGlobales filtroHash row
            (calculate_expiration cfg "stats" now) }
  else st

/-- The method `get_analisis_ligero` (lines 146-174). -/
def get_analisis_ligero (st : CacheState) (idContrato : String)
    (now : ℕ) : Option LigeroRow :=
  if st.enabled then cacheLookup st.analisisLigero idContrato now else none

/-- The method `get_analisis_ligero_batch` (lines 176-210): rows whose id is in the
requested set and whose expiration is in the future; the empty mapping when
disabled or when no ids are requested. -/
def get_analisis_ligero_batch (st : CacheState) (ids : List String)
    (now : ℕ) : List (String × LigeroRow) :=
  if !st.enabled || ids.isEmpty then []
  else
    (st.analisisLigero.filter fun r => ids.contains r.1 && decide (now < r.2.2)).map
      fun r => (r.1, r.2.1)

/-- The method `save_analisis_ligero` (lines 212-245). -/
def save_analisis_ligero (cfg : CacheConfig) (st : CacheState) (now : ℕ)
    (idContrato : String) (row : LigeroRow) : CacheState :=
  if st.enabled then
    { st with
        analisisLigero :=
          cacheUpsert st.analisisLigero idContrato row
            (calculate_expiration cfg "ligero" now) }
  else st

/-- The method `save_analisis_ligero_batch` (lines 247-279): one shared expiration,
then an upsert per element. -/
def save_analisis_ligero_batch (cfg : CacheConfig) (st : CacheState) (now : ℕ)
    (analisisList : List (String × LigeroRow)) : CacheState :=
  if !st.enabled || analisisList.isEmpty then st
  else
    { st with
        analisisLigero :=
          analisisList.foldl
            (fun rows a => cacheUpsert rows a.1 a.2 (calculate_expiration cfg "ligero" now))
            st.analisisLigero }

/-- The method `get_analisis_detallado` (lines 283-319). -/
def get_analisis_detallado (st : CacheState) (idContrato : String)
    (now : ℕ) : Option DetalladoRow :=
  if st.enabled then cacheLookup st.analisisDetallado idContrato now else none

/-- The method `save_analisis_detallado` (lines 321-371). -/
def save_analisis_detallado (cfg : CacheConfig) (st : CacheState) (now : ℕ)
    (idContrato : String) (row : DetalladoRow) : CacheState :=
  if st.enabled then
    { st with
        analisisDetallado :=
          cacheUpsert st.analisisDetallado idContrato row
            (calculate_expiration cfg "detallado" now) }
  else st

/-- The method `cleanup_expired` (lines 375-392): delete every row with
`fecha_expiracion <= now` from the three tables. -/
def cleanup_expired (st : CacheState) (now : ℕ) : CacheState :=
  if st.enabled then
    { st with
        estadisticasGlobales := st.estadisticasGlobales.filter fun r => !decide (r.2.2 ≤ now)
        analisisLigero := st.analisisLigero.filter fun r => !decide (r.2.2 ≤ now)
        analisisDetallado := st.analisisDetallado.filter fun r => !decide (r.2.2 ≤ now) }
  else st

/-- The method `get_cache_stats` (lines 394-414): per-table row counts, or the empty
mapping when disabled. -/
def get_cache_stats (st : CacheState) : List (String × ℕ) :=
  if st.enabled then
    [("total_stats", st.estadisticasGlobales.length),
     ("total_ligero", st.analisisLigero.length),
     ("total_detallado", st.analisisDetallado.length)]
  else []

end Cache

namespace Service

/-- The public risk-level enum `NivelRiesgo` (schemas.py lines 13-18).  Note
it has no CRÍTICO member. -/
inductive NivelRiesgo where
  | alto
  | medio
  | bajo
  | sinAnalisis
deriving DecidableEq, Repr

/-- The string value of each enum member. -/
def NivelRiesgo.val : NivelRiesgo → String
  | .alto => "Alto"
  | .medio => "Medio"
  | .bajo => "Bajo"
  | .sinAnalisis => "Sin Analisis"

/-- The method `_mapear_nivel_riesgo` (contract_service.py lines 96-111): the dict
lookup `{"CRÍTICO": ALTO, "ALTO": MEDIO, "BAJO": BAJO}.get(nivel, MEDIO)`. -/
def mapear_nivel_riesgo (nivel : String) : NivelRiesgo :=
  if nivel = "CRÍTICO" then .alto
  else if nivel = "ALTO" then .medio
  else if nivel = "BAJO" then .bajo
  else .medio

/-- One `ShapValueModel` of the public response (the Pydantic field
`variable` is a Lean keyword, hence `varName`). -/
structure ShapValueModel where
  varName : String
  value : ℚ
  description : String
  actualValue : String
deriving DecidableEq, Repr

/-- Descending-by-absolute-value order on SHAP models, the key of
`shap_models.sort(key=lambda x: abs(x.value), reverse=True)`. -/
def shapGe (a b : ShapValueModel) : Prop := |b.value| ≤ |a.value|

instance : DecidableRel shapGe := fun a b =>
  inferInstanceAs (Decidable (|b.value| ≤ |a.value|))

instance : IsTotal ShapValueModel shapGe := ⟨fun a b => le_total |b.value| |a.value|⟩

instance : IsTrans ShapValueModel shapGe := ⟨fun _ _ _ h1 h2 => le_trans h2 h1⟩

/-- Models `variable.lower().replace(" ", "_").replace("-", "_")`
(contract_service.py line 189). -/
def normalizarVariable (v : String) : String :=
  String.mk (v.toList.map fun ch =>
    let l := ch.toLower
    if l = ' ' ∨ l = '-' then '_' else l)

/-- The method `_construir_shap_values` (contract_service.py lines 113-216), on the
item list already extracted from the motor (pairs `(variable, valor)`; the
non-dict/non-numeric repair paths of the source cannot arise for
well-typed items).  Items with an empty `variable` are skipped
(`continue`); each kept item is normalized and rounded; the result is
sorted by absolute value descending.  The `description`/`actualValue`
lookup tables built from the contract are abstracted as the two function
arguments. -/
def construir_shap_values (descripcionDe actualDe : String → String)
    (detalleShap : List (String × ℚ)) : List ShapValueModel :=
  let modelos := (detalleShap.filter fun p => p.1 ≠ "").map fun p =>
    { varName := normalizarVariable p.1
      value := round4 p.2
      description := descripcionDe p.1
      actualValue := actualDe p.1 : ShapValueModel }
  List.insertionSort shapGe modelos

end Service

/-! Concrete inputs used by witnesses and counterexamples. -/

/-- A degraded-mode analyzer state: no artifacts loaded, no NLP, no SHAP. -/
def motorDegradado : Analyzer.RadarColInferencia :=
  { isoForest := none
    modoSoloLLM := true
    statsEntidades := [("default", fallbackStats)]
    usarShap := false
    shapExplainer := fun _ => none
    modelNlp := false
    hasCentroide := false
    semDist := fun _ => none }

/-- A degraded engine state: no artifacts, no NLP. -/
def engineDegradado : Engine.RadarColInferencia :=
  { isoForest := none
    statsEntidades := []
    usarShap := false
    shapVals := fun _ => []
    modelNlp := none }

/-- Contract worth 500,000,000 against the fallback statistics
(mean 50,000,000, std 20,000,000): z-score 22.5. -/
def contratoGrande : Contrato :=
  { valorDelContrato := 500000000
    objetoLen := 40
    nitEntidad := "830000000"
    duracionDias := 120
    indiceDependencia := 0
    anioFirma := 2025
    mesFirma := 1 }

/-- Contract worth 130,000,000 against the fallback statistics: z-score 4,
inside the veto band but with `min(|z|/5, 1) = 4/5 < 1`. -/
def contratoZ4 : Contrato :=
  { valorDelContrato := 130000000
    objetoLen := 40
    nitEntidad := "830000000"
    duracionDias := 120
    indiceDependencia := 0
    anioFirma := 2025
    mesFirma := 1 }

/-- A concrete attempt trace: two rate-limited attempts followed by a
non-rate-limit server error. -/
def intentosDemo : ℕ → Analyzer.ApiOutcome := fun i =>
  if i = 0 then .failure "429 Too Many Requests"
  else if i = 1 then .failure "Rate limit reached"
  else .failure "500 internal error"

/-- A parser that never recognizes a narrative (models unparsable output). -/
def limpiarNada : String → Option Analyzer.Narrativa := fun _ => none

/-- A concrete analyzer state in which the SHAP explainer is loaded and
returns weights whose absolute values are increasing, so the emitted
attribution list is not sorted descending. -/
def motorShapDemo : Analyzer.RadarColInferencia :=
  { isoForest := none
    modoSoloLLM := true
    statsEntidades := [("default", fallbackStats)]
    usarShap := true
    shapExplainer := fun _ => some [1/10, 1/2]
    modelNlp := false
    hasCentroide := false
    semDist := fun _ => none }

/-- Auxiliary: rounding the constant 1 to 4 decimal places is exact. -/
theorem round4_one_eq : round4 1 = 1 := by
  unfold round4 roundTo
  rw [show ((1:ℚ) * 10 ^ 4) = ((10000 : ℤ) : ℚ) by norm_num, round_intCast]
  norm_num

/-- Auxiliary: the z-score of `contratoGrande` in the degraded analyzer
state is 22.5. -/
theorem zScore_contratoGrande :
    Analyzer.zScore motorDegradado contratoGrande = 45/2 := by
  norm_num [Analyzer.zScore, Analyzer.entityStats, motorDegradado,
    contratoGrande, fallbackStats]

/-- Auxiliary: the engine z-score of `contratoGrande` with an empty
statistics table exceeds 3. -/
theorem engineZScore_contratoGrande :
    Engine.zScore engineDegradado contratoGrande > 3 := by
  rw [Engine.zScore]
  norm_num [Engine.entityStats, engineDegradado, contratoGrande, fallbackStats]

/-- C1: whenever the computed value z-score exceeds 3, the statistical
sub-score of the produced assessment is exactly 1.0 — in the app analyzer
(normal, exception-fallback and degraded branches alike, since the veto is
applied after every branch) and in the motor engine. -/
theorem claim1_veto_forces_one :
    (∀ (m : Analyzer.RadarColInferencia) (c : Contrato),
      Analyzer.zScore m c > 3 →
      (Analyzer.analizar_contrato_ml_solo m c).metaData.scoreIsolationForest = 1)
    ∧ (∀ (em : Engine.RadarColInferencia) (c : Contrato),
      Engine.zScore em c > 3 →
      (Engine.analizar_contrato em c).metaData.scoreIsolationForest = 1) := by
  constructor
  · intro m c h
    simp [Analyzer.analizar_contrato_ml_solo, Analyzer.risk_ml, h]
  · intro em c h
    simp [Engine.analizar_contrato, Engine.risk_ml, h, round4_one_eq]

/-- Witness for C1 at a concrete degraded state and a contract whose
z-score is 22.5 (analyzer) and ≈22.5 (engine). -/
theorem claim1_veto_forces_one_witness :
    (Analyzer.zScore motorDegradado contratoGrande > 3
      ∧ (Analyzer.analizar_contrato_ml_solo motorDegradado
          contratoGrande).metaData.scoreIsolationForest = 1)
    ∧ (Engine.zScore engineDegradado contratoGrande > 3
      ∧ (Engine.analizar_contrato engineDegradado
          contratoGrande).metaData.scoreIsolationForest = 1) :=
  ⟨⟨by rw [zScore_contratoGrande]; norm_num,
    claim1_veto_forces_one.1 motorDegradado contratoGrande
      (by rw [zScore_contratoGrande]; norm_num)⟩,
   ⟨engineZScore_contratoGrande,
    claim1_veto_forces_one.2 engineDegradado contratoGrande
      engineZScore_contratoGrande⟩⟩

/-- C2: the fused score equals the statistical sub-score when the semantic
model is absent (and the semantic sub-score is then the neutral 0.0), and
equals `0.7·statistical + 0.3·semantic` when the semantic model is
present. -/
theorem claim2_fusion_weights :
    ∀ (m : Analyzer.RadarColInferencia) (c : Contrato),
      (m.modelNlp = false →
        (Analyzer.analizar_contrato_ml_solo m c).metaData.score
          = (Analyzer.analizar_contrato_ml_solo m c).metaData.scoreIsolationForest
        ∧ (Analyzer.analizar_contrato_ml_solo m c).metaData.scoreNlpEmbeddings = 0)
      ∧ (m.modelNlp = true →
        (Analyzer.analizar_contrato_ml_solo m c).metaData.score
          = (7/10) * (Analyzer.analizar_contrato_ml_solo m c).metaData.scoreIsolationForest
            + (3/10) * (Analyzer.analizar_contrato_ml_solo m c).metaData.scoreNlpEmbeddings) := by
  intro m c
  constructor
  · intro h
    simp [Analyzer.analizar_contrato_ml_solo, Analyzer.score_combinado,
      Analyzer.risk_nlp, h]
  · intro h
    simp [Analyzer.analizar_contrato_ml_solo, Analyzer.score_combinado, h]
    ring

/-- Witness for C2: in the degraded state (semantic model absent) the fused
score coincides with the statistical sub-score and the semantic sub-score
is 0. -/
theorem claim2_fusion_weights_witness :
    (Analyzer.analizar_contrato_ml_solo motorDegradado contratoGrande).metaData.score
      = (Analyzer.analizar_contrato_ml_solo motorDegradado
          contratoGrande).metaData.scoreIsolationForest
    ∧ (Analyzer.analizar_contrato_ml_solo motorDegradado
        contratoGrande).metaData.scoreNlpEmbeddings = 0 :=
  (claim2_fusion_weights motorDegradado contratoGrande).1 rfl

/-- C3 counterexample: the claim's thresholds fail on the motor engine's
tiering (engine.py line 284).  At the fused score 0.75, the claim demands
tier CRÍTICO (since 0.75 ≥ 0.7), but the engine assigns ALTO, because it
uses `> 0.8` for CRÍTICO. -/
theorem claim3_thresholds_counterexample :
    ¬ (Engine.nivel_alerta (3/4) = "CRÍTICO" ↔ (7/10 : ℚ) ≤ 3/4) := by
  have hv : Engine.nivel_alerta (3/4) = "ALTO" := by norm_num [Engine.nivel_alerta]
  intro hiff
  have hc := hiff.mpr (by norm_num)
  rw [hv] at hc
  exact absurd hc (by decide)

/-- C3 amended: the claimed thresholds (CRÍTICO iff s ≥ 0.7, ALTO iff
0.5 ≤ s < 0.7, MEDIO iff 0.3 ≤ s < 0.5, BAJO iff s < 0.3) hold for the app
analyzer's tiering; the motor engine instead assigns CRÍTICO iff s > 0.8,
ALTO iff 0.5 < s ≤ 0.8, and BAJO iff s ≤ 0.5 (it has no MEDIO tier). -/
theorem claim3_tier_thresholds :
    (∀ s : ℚ,
      (Analyzer.nivelDeRiesgo s = "CRÍTICO" ↔ 7/10 ≤ s)
      ∧ (Analyzer.nivelDeRiesgo s = "ALTO" ↔ 1/2 ≤ s ∧ s < 7/10)
      ∧ (Analyzer.nivelDeRiesgo s = "MEDIO" ↔ 3/10 ≤ s ∧ s < 1/2)
      ∧ (Analyzer.nivelDeRiesgo s = "BAJO" ↔ s < 3/10))
    ∧ (∀ s : ℚ,
      (Engine.nivel_alerta s = "CRÍTICO" ↔ 4/5 < s)
      ∧ (Engine.nivel_alerta s = "ALTO" ↔ 1/2 < s ∧ s ≤ 4/5)
      ∧ (Engine.nivel_alerta s = "BAJO" ↔ s ≤ 1/2)) := by
  constructor
  · intro s
    unfold Analyzer.nivelDeRiesgo
    split_ifs with h1 h2 h3 <;>
      refine ⟨?_, ?_, ?_, ?_⟩ <;>
      constructor <;>
      intro h <;>
      first
        | rfl
        | exact absurd h (by decide)
        | exact ⟨by linarith, by linarith⟩
        | linarith
  · intro s
    unfold Engine.nivel_alerta
    split_ifs with h1 h2 <;>
      refine ⟨?_, ?_, ?_⟩ <;>
      constructor <;>
      intro h <;>
      first
        | rfl
        | exact absurd h (by decide)
        | exact ⟨by linarith, by linarith⟩
        | linarith

/-- Witness for C3 (amended) at the fused score 0.75: the analyzer assigns
CRÍTICO, the engine assigns ALTO. -/
theorem claim3_tier_thresholds_witness :
    Analyzer.nivelDeRiesgo (3/4) = "CRÍTICO"
    ∧ Engine.nivel_alerta (3/4) = "ALTO" :=
  ⟨(claim3_tier_thresholds.1 (3/4)).1.mpr (by norm_num),
   ((claim3_tier_thresholds.2 (3/4)).2.1).mpr ⟨by norm_num, by norm_num⟩⟩

/-- C10: the service layer demotes engine tier labels before exposing them:
CRÍTICO→Alto, ALTO→Medio, BAJO→Bajo, anything else (including the engine's
MEDIO)→Medio; consequently the mapped public level is never a CRÍTICO-like
value (the public enum does not even contain one). -/
theorem claim10_nivel_riesgo_mapping :
    Service.mapear_nivel_riesgo "CRÍTICO" = Service.NivelRiesgo.alto
    ∧ Service.mapear_nivel_riesgo "ALTO" = Service.NivelRiesgo.medio
    ∧ Service.mapear_nivel_riesgo "BAJO" = Service.NivelRiesgo.bajo
    ∧ Service.mapear_nivel_riesgo "MEDIO" = Service.NivelRiesgo.medio
    ∧ (∀ s, s ≠ "CRÍTICO" → s ≠ "ALTO" → s ≠ "BAJO" →
        Service.mapear_nivel_riesgo s = Service.NivelRiesgo.medio)
    ∧ (∀ s, (Service.mapear_nivel_riesgo s).val ≠ "CRÍTICO"
        ∧ Service.mapear_nivel_riesgo s ≠ Service.NivelRiesgo.sinAnalisis) := by
  refine ⟨by decide, by decide, by decide, by decide, ?_, ?_⟩
  · intro s h1 h2 h3
    simp [Service.mapear_nivel_riesgo, h1, h2, h3]
  · intro s
    unfold Service.mapear_nivel_riesgo
    split_ifs <;> exact ⟨by decide, by decide⟩

/-- Witness for C10: the default branch applied at the engine label
"MEDIO" and at an arbitrary unknown label. -/
theorem claim10_nivel_riesgo_mapping_witness :
    Service.mapear_nivel_riesgo "MEDIO" = Service.NivelRiesgo.medio
    ∧ Service.mapear_nivel_riesgo "desconocido" = Service.NivelRiesgo.medio :=
  ⟨claim10_nivel_riesgo_mapping.2.2.2.2.1 "MEDIO"
    (by decide) (by decide) (by decide),
   claim10_nivel_riesgo_mapping.2.2.2.2.1 "desconocido"
    (by decide) (by decide) (by decide)⟩

/-- Auxiliary: the z-score of `contratoZ4` in the degraded analyzer state
is 4. -/
theorem zScore_contratoZ4 : Analyzer.zScore motorDegradado contratoZ4 = 4 := by
  norm_num [Analyzer.zScore, Analyzer.entityStats, motorDegradado,
    contratoZ4, fallbackStats]

/-- C4 counterexample: in degraded mode, for a contract with z-score 4 the
returned statistical sub-score is 1.0 (the veto fires), not
`min(|z| / 5, 1) = 0.8`; and the exposed raw model output is `None`
(`float(score_raw) if self.iso_forest else None`), not the negation of the
sub-score.  So the claim as stated fails at this input. -/
theorem claim4_degraded_counterexample :
    motorDegradado.isoForest = none
    ∧ (Analyzer.analizar_contrato_ml_solo motorDegradado
        contratoZ4).metaData.scoreIsolationForest
        ≠ min (|Analyzer.zScore motorDegradado contratoZ4| / 5) 1
    ∧ (Analyzer.analizar_contrato_ml_solo motorDegradado
        contratoZ4).metaData.rawIsolationForest = none := by
  refine ⟨rfl, ?_, by simp [Analyzer.analizar_contrato_ml_solo, motorDegradado]⟩
  show Analyzer.risk_ml motorDegradado contratoZ4 ≠ _
  rw [Analyzer.risk_ml, zScore_contratoZ4]
  norm_num

/-- C4 amended: whenever the statistical artifact is not loaded, scoring is
total (the embedding is a total function) and returns the statistical
sub-score `min(|z| / 5, 1)` except when z > 3, where the veto forces 1.0;
the exposed raw model output is `None` in this mode (the internal
`score_raw = -min(|z| / 5, 1)` is not surfaced). -/
theorem claim4_degraded_mode :
    ∀ (m : Analyzer.RadarColInferencia) (c : Contrato), m.isoForest = none →
      (Analyzer.analizar_contrato_ml_solo m c).metaData.scoreIsolationForest
        = (if Analyzer.zScore m c > 3 then 1
           else min (|Analyzer.zScore m c| / 5) 1)
      ∧ (Analyzer.analizar_contrato_ml_solo m c).metaData.rawIsolationForest
        = none := by
  intro m c h
  constructor
  · show Analyzer.risk_ml m c = _
    rw [Analyzer.risk_ml, Analyzer.riskMlBranch, h]
  · simp [Analyzer.analizar_contrato_ml_solo, h]

/-- Witness for C4 (amended) at the degraded state and the z-score-4
contract. -/
theorem claim4_degraded_mode_witness :
    (Analyzer.analizar_contrato_ml_solo motorDegradado
        contratoZ4).metaData.scoreIsolationForest
      = (if Analyzer.zScore motorDegradado contratoZ4 > 3 then 1
         else min (|Analyzer.zScore motorDegradado contratoZ4| / 5) 1)
    ∧ (Analyzer.analizar_contrato_ml_solo motorDegradado
        contratoZ4).metaData.rawIsolationForest = none :=
  claim4_degraded_mode motorDegradado contratoZ4 rfl

/-- Auxiliary: the retry loop never makes more attempts than it has fuel. -/
theorem retryRun_attemptsMade_le (attempts : ℕ → Analyzer.ApiOutcome) :
    ∀ (fuel i : ℕ), (Analyzer.retryRun attempts i fuel).attemptsMade ≤ fuel := by
  intro fuel
  induction fuel with
  | zero => intro i; simp [Analyzer.retryRun]
  | succ n ih =>
    intro i
    unfold Analyzer.retryRun
    cases attempts i with
    | success s => simp
    | failure e =>
      by_cases hr : Analyzer.es_rate_limit e = true
      · simp only [hr, if_true]
        exact Nat.succ_le_succ (ih (i + 1))
      · simp [hr]

/-- Auxiliary: the j-th wait performed by the loop entered at attempt `i`
is `12 + (i + j) * 8` seconds. -/
theorem retryRun_waits_eq (attempts : ℕ → Analyzer.ApiOutcome) :
    ∀ (fuel i j w : ℕ),
      (Analyzer.retryRun attempts i fuel).waits.get? j = some w →
      w = 12 + (i + j) * 8 := by
  intro fuel
  induction fuel with
  | zero => intro i j w h; simp [Analyzer.retryRun] at h
  | succ n ih =>
    intro i j w h
    unfold Analyzer.retryRun at h
    cases ha : attempts i with
    | success s => simp [ha] at h
    | failure e =>
      by_cases hr : Analyzer.es_rate_limit e = true
      · simp only [ha, hr, if_true] at h
        cases j with
        | zero =>
          simp only [List.get?_cons_zero, Option.some_inj] at h
          omega
        | succ j2 =>
          simp only [List.get?_cons_succ] at h
          have := ih (i + 1) j2 w h
          omega
      · simp [ha, hr] at h

/-- Auxiliary: whenever the loop goes past attempt `k`, attempt `k` failed
with a rate-limit error. -/
theorem retryRun_continue_rate_limit (attempts : ℕ → Analyzer.ApiOutcome) :
    ∀ (fuel i k : ℕ),
      k + 1 < (Analyzer.retryRun attempts i fuel).attemptsMade →
      ∃ e, attempts (i + k) = .failure e ∧ Analyzer.es_rate_limit e = true := by
  intro fuel
  induction fuel with
  | zero => intro i k h; simp [Analyzer.retryRun] at h
  | succ n ih =>
    intro i k h
    unfold Analyzer.retryRun at h
    cases ha : attempts i with
    | success s => simp [ha] at h
    | failure e =>
      by_cases hr : Analyzer.es_rate_limit e = true
      · simp only [ha, hr, if_true] at h
        cases k with
        | zero => exact ⟨e, by rwa [Nat.add_zero], hr⟩
        | succ k2 =>
          have h2 : k2 + 1 < (Analyzer.retryRun attempts (i + 1) n).attemptsMade := by
            omega
          obtain ⟨e2, he2, hrate2⟩ := ih (i + 1) k2 h2
          exact ⟨e2, by rwa [show i + (k2 + 1) = i + 1 + k2 by omega], hrate2⟩
      · simp [ha, hr] at h

/-- Auxiliary: a non-rate-limit failure at attempt `k` (after `k`
rate-limited attempts) stops the loop right there with no result. -/
theorem retryRun_abort_other_error (attempts : ℕ → Analyzer.ApiOutcome) :
    ∀ (fuel i k : ℕ) (e : String), k < fuel →
      (∀ j, j < k → ∃ e2, attempts (i + j) = .failure e2
        ∧ Analyzer.es_rate_limit e2 = true) →
      attempts (i + k) = .failure e → Analyzer.es_rate_limit e = false →
      (Analyzer.retryRun attempts i fuel).attemptsMade = k + 1
      ∧ (Analyzer.retryRun attempts i fuel).result = none := by
  intro fuel
  induction fuel with
  | zero => intro i k e hk; omega
  | succ n ih =>
    intro i k e hk hprev ha hnr
    cases k with
    | zero =>
      rw [Nat.add_zero] at ha
      unfold Analyzer.retryRun
      simp [ha, hnr]
    | succ k2 =>
      obtain ⟨e0, ha0, hr0⟩ := hprev 0 (Nat.succ_pos k2)
      rw [Nat.add_zero] at ha0
      unfold Analyzer.retryRun
      have hprev2 : ∀ j, j < k2 → ∃ e2, attempts (i + 1 + j) = .failure e2
          ∧ Analyzer.es_rate_limit e2 = true := by
        intro j hj
        obtain ⟨e2, he2, hr2⟩ := hprev (j + 1) (by omega)
        exact ⟨e2, by rwa [show i + 1 + j = i + (j + 1) by omega], hr2⟩
      have ha2 : attempts (i + 1 + k2) = .failure e := by
        rwa [show i + 1 + k2 = i + (k2 + 1) by omega]
      obtain ⟨h1, h2⟩ := ih (i + 1) k2 e (by omega) hprev2 ha2 hnr
      simp [ha0, hr0, h1, h2]

/-- C5: `_generar_con_retry` makes at most 3 attempts; every recorded wait
after failed attempt j is `12 + 8·j` seconds (so 12, then 20); the loop
continues past an attempt only when that attempt failed with a rate-limit
error; a non-rate-limit failure stops the loop right there with no result;
and when no attempt produced a result, or the produced text is unparsable,
`_generar_analisis_ia` returns the fixed canned narrative, so the overall
analysis still succeeds. -/
theorem claim5_retry_and_fallback :
    ∀ (attempts : ℕ → Analyzer.ApiOutcome)
      (limpiarJson : String → Option Analyzer.Narrativa),
      (Analyzer.generar_con_retry attempts).attemptsMade ≤ 3
      ∧ (∀ j w, (Analyzer.generar_con_retry attempts).waits.get? j = some w →
          w = 12 + 8 * j)
      ∧ (∀ k, k + 1 < (Analyzer.generar_con_retry attempts).attemptsMade →
          ∃ e, attempts k = .failure e ∧ Analyzer.es_rate_limit e = true)
      ∧ (∀ k e, k < 3 →
          (∀ j, j < k → ∃ e2, attempts j = .failure e2
            ∧ Analyzer.es_rate_limit e2 = true) →
          attempts k = .failure e → Analyzer.es_rate_limit e = false →
          (Analyzer.generar_con_retry attempts).attemptsMade = k + 1
          ∧ (Analyzer.generar_con_retry attempts).result = none)
      ∧ ((Analyzer.generar_con_retry attempts).result = none →
          Analyzer.generar_analisis_ia limpiarJson attempts
            = Analyzer.fallbackNarrativa)
      ∧ (∀ raw, (Analyzer.generar_con_retry attempts).result = some raw →
          limpiarJson raw = none →
          Analyzer.generar_analisis_ia limpiarJson attempts
            = Analyzer.fallbackNarrativa) := by
  intro attempts limpiarJson
  refine ⟨retryRun_attemptsMade_le attempts 3 0, ?_, ?_, ?_, ?_, ?_⟩
  · intro j w h
    have := retryRun_waits_eq attempts 3 0 j w h
    omega
  · intro k h
    have := retryRun_continue_rate_limit attempts 3 0 k h
    simpa using this
  · intro k e hk hprev ha hnr
    refine retryRun_abort_other_error attempts 3 0 k e hk ?_ (by simpa using ha) hnr
    intro j hj
    simpa using hprev j hj
  · intro h
    simp only [Analyzer.generar_analisis_ia, h]
  · intro raw h hp
    simp only [Analyzer.generar_analisis_ia, h, hp]

/-- Witness for C5: on the trace rate-limit, rate-limit, server-error the
loop makes exactly 3 attempts, sleeps 12 then 20 seconds, returns no
result, and the analysis falls back to the canned narrative. -/
theorem claim5_retry_and_fallback_witness :
    (Analyzer.generar_con_retry intentosDemo).attemptsMade ≤ 3
    ∧ Analyzer.generar_analisis_ia limpiarNada intentosDemo
        = Analyzer.fallbackNarrativa
    ∧ (Analyzer.generar_con_retry intentosDemo).waits = [12, 20] :=
  ⟨(claim5_retry_and_fallback intentosDemo limpiarNada).1,
   (claim5_retry_and_fallback intentosDemo limpiarNada).2.2.2.2.1 (by decide),
   by decide⟩

/-- Auxiliary: two key-sorted pair lists that are permutations of each
other and have duplicate-free keys are equal. -/
theorem sorted_perm_nodup_keys_eq :
    ∀ (l1 l2 : List (String × Cache.JVal)), l1.Perm l2 →
      l1.Sorted Cache.keyLe → l2.Sorted Cache.keyLe →
      (l1.map Prod.fst).Nodup → l1 = l2 := by
  intro l1
  induction l1 with
  | nil =>
    intro l2 hp _ _ _
    exact (hp.symm.eq_nil).symm
  | cons a t1 ih =>
    intro l2 hp hs1 hs2 hnd
    cases l2 with
    | nil => exact absurd hp.eq_nil (List.cons_ne_nil a t1)
    | cons b t2 =>
      have hb1 : b ∈ a :: t1 := hp.mem_iff.mpr (List.mem_cons_self b t2)
      have ha2 : a ∈ b :: t2 := hp.mem_iff.mp (List.mem_cons_self a t1)
      have hab : a = b := by
        rcases List.mem_cons.mp hb1 with hba | hbt1
        · exact hba.symm
        rcases List.mem_cons.mp ha2 with hba | hat2
        · exact hba
        have h1 : Cache.keyLe a b := (List.sorted_cons.mp hs1).1 b hbt1
        have h2 : Cache.keyLe b a := (List.sorted_cons.mp hs2).1 a hat2
        have hkey : a.1 = b.1 := le_antisymm h1 h2
        have hmem : a.1 ∈ t1.map Prod.fst := by
          rw [hkey]
          exact List.mem_map_of_mem Prod.fst hbt1
        rw [List.map_cons, List.nodup_cons] at hnd
        exact absurd hmem hnd.1
      subst hab
      have ht : t1.Perm t2 := hp.cons_inv
      have htl := ih t2 ht (List.sorted_cons.mp hs1).2 (List.sorted_cons.mp hs2).2
        (by rw [List.map_cons, List.nodup_cons] at hnd; exact hnd.2)
      rw [htl]

/-- Auxiliary: sorting by key is invariant under permutation of the input
pairs, given duplicate-free keys. -/
theorem insertionSort_keyLe_perm_eq (l1 l2 : List (String × Cache.JVal))
    (hp : l1.Perm l2) (hnd : (l1.map Prod.fst).Nodup) :
    List.insertionSort Cache.keyLe l1 = List.insertionSort Cache.keyLe l2 := by
  refine sorted_perm_nodup_keys_eq _ _ ?_ ?_ ?_ ?_
  · exact (List.perm_insertionSort Cache.keyLe l1).trans
      (hp.trans (List.perm_insertionSort Cache.keyLe l2).symm)
  · exact List.sorted_insertionSort Cache.keyLe l1
  · exact List.sorted_insertionSort Cache.keyLe l2
  · exact (((List.perm_insertionSort Cache.keyLe l1).map Prod.fst).nodup_iff).mpr hnd

/-- C6: `generate_filter_hash` is deterministic and order-independent: two
filter dictionaries holding exactly the same key/value pairs (in any
insertion order, keys distinct as they are in a dict) serialize to the same
canonical sorted-key JSON text and therefore hash to the same fingerprint,
for any digest function. -/
theorem claim6_filter_hash_order_independent :
    ∀ (md5Hex : String → String) (l1 l2 : List (String × Cache.JVal)),
      l1.Perm l2 → (l1.map Prod.fst).Nodup →
      Cache.generate_filter_hash md5Hex l1 = Cache.generate_filter_hash md5Hex l2 := by
  intro md5Hex l1 l2 hp hnd
  unfold Cache.generate_filter_hash Cache.dumpsSortKeys
  rw [insertionSort_keyLe_perm_eq l1 l2 hp hnd]

/-- Witness for C6: the filter set of `obtener_contratos_filtrados`
(`where_clause`, `analyze_all`, `return_limit`, `sample_mode`) inserted in
two different orders hashes identically. -/
theorem claim6_filter_hash_order_independent_witness :
    Cache.generate_filter_hash (fun s => s)
      [("where_clause", Cache.JVal.str "valor_del_contrato > 0"),
       ("analyze_all", Cache.JVal.boolean false),
       ("return_limit", Cache.JVal.int 10),
       ("sample_mode", Cache.JVal.boolean true)]
    = Cache.generate_filter_hash (fun s => s)
      [("sample_mode", Cache.JVal.boolean true),
       ("return_limit", Cache.JVal.int 10),
       ("analyze_all", Cache.JVal.boolean false),
       ("where_clause", Cache.JVal.str "valor_del_contrato > 0")] :=
  claim6_filter_hash_order_independent (fun s => s) _ _ (by decide) (by decide)

/-- Auxiliary: after filtering out every row with the given key, a keyed
lookup finds nothing. -/
theorem find?_filter_ne_key {α : Type} (rows : List (String × α × ℕ))
    (key : String) (t : ℕ) :
    ((rows.filter fun r => !(r.1 == key)).find?
      (fun r => r.1 == key && decide (t < r.2.2))) = none := by
  induction rows with
  | nil => rfl
  | cons a l ih =>
    by_cases hk : (a.1 == key) = true
    · simp only [List.filter_cons, hk, Bool.not_true, if_false]
      exact ih
    · have hk2 : (a.1 == key) = false := by
        cases hb : (a.1 == key)
        · rfl
        · exact absurd hb hk
      simp only [List.filter_cons, hk2, Bool.not_false, if_true, List.find?_cons,
        Bool.false_and]
      exact ih

/-- Auxiliary: reading the key just upserted with expiration `e` at time
`t` hits exactly when `t < e`. -/
theorem cacheLookup_upsert {α : Type} (rows : List (String × α × ℕ))
    (key : String) (p : α) (e t : ℕ) :
    Cache.cacheLookup (Cache.cacheUpsert rows key p e) key t
      = if t < e then some p else none := by
  unfold Cache.cacheUpsert Cache.cacheLookup
  by_cases ht : t < e
  · simp [List.find?_cons, ht]
  · rw [List.find?_cons]
    have hc : (((key, p, e) : String × α × ℕ).1 == key
        && decide (t < ((key, p, e) : String × α × ℕ).2.2)) = false := by
      simp [ht]
    simp only [hc, find?_filter_ne_key]
    simp [ht]

/-- C7: an upsert at time T with TTL D stores the row with expiration
timestamp T + D, and a read of that key at time t is a hit returning the
stored payload if and only if t < T + D — at or beyond T + D the read
misses even though the row is still physically present.  Stated both for
the generic table operation and for the statistics table with
`_calculate_expiration`. -/
theorem claim7_ttl_hit_iff :
    (∀ (rows : List (String × Cache.EstadisticasRow × ℕ)) (key : String)
        (p : Cache.EstadisticasRow) (T D t : ℕ),
      (key, p, T + D) ∈ Cache.cacheUpsert rows key p (T + D)
      ∧ Cache.cacheLookup (Cache.cacheUpsert rows key p (T + D)) key t
          = if t < T + D then some p else none)
    ∧ (∀ (cfg : Cache.CacheConfig) (st : Cache.CacheState) (T t : ℕ)
        (fh : String) (row : Cache.EstadisticasRow), st.enabled = true →
      (fh, row, T + Cache.get_ttl_days cfg "stats")
          ∈ (Cache.save_estadisticas cfg st T fh row).estadisticasGlobales
      ∧ Cache.get_estadisticas_cached (Cache.save_estadisticas cfg st T fh row) fh t
          = if t < T + Cache.get_ttl_days cfg "stats"
            then some (Cache.seleccionarEstadisticas row) else none) := by
  constructor
  · intro rows key p T D t
    exact ⟨List.mem_cons_self _ _, cacheLookup_upsert rows key p (T + D) t⟩
  · intro cfg st T t fh row hen
    unfold Cache.save_estadisticas Cache.get_estadisticas_cached
      Cache.calculate_expiration
    simp only [hen, if_true]
    constructor
    · exact List.mem_cons_self _ _
    · rw [cacheLookup_upsert]
      by_cases ht : t < T + Cache.get_ttl_days cfg "stats" <;> simp [ht]

/-- Witness for C7 on a concrete one-day-TTL configuration: a row written
at time 100 expires at 124 (time in hours here; units are opaque), hits at
time 123 and misses at time 124. -/
theorem claim7_ttl_hit_iff_witness :
    ((Cache.get_estadisticas_cached
        (Cache.save_estadisticas ⟨24, 168, 168⟩
          ⟨true, [], [], []⟩ 100 "abc" ⟨"sin filtros", 10, 2, 3, 5, 20, 1000⟩)
        "abc" 123
      = if 123 < 100 + Cache.get_ttl_days ⟨24, 168, 168⟩ "stats"
        then some (Cache.seleccionarEstadisticas ⟨"sin filtros", 10, 2, 3, 5, 20, 1000⟩)
        else none)
    ∧ (Cache.get_estadisticas_cached
        (Cache.save_estadisticas ⟨24, 168, 168⟩
          ⟨true, [], [], []⟩ 100 "abc" ⟨"sin filtros", 10, 2, 3, 5, 20, 1000⟩)
        "abc" 124
      = if 124 < 100 + Cache.get_ttl_days ⟨24, 168, 168⟩ "stats"
        then some (Cache.seleccionarEstadisticas ⟨"sin filtros", 10, 2, 3, 5, 20, 1000⟩)
        else none)) :=
  ⟨(claim7_ttl_hit_iff.2 ⟨24, 168, 168⟩ ⟨true, [], [], []⟩ 100 123 "abc"
      ⟨"sin filtros", 10, 2, 3, 5, 20, 1000⟩ rfl).2,
   (claim7_ttl_hit_iff.2 ⟨24, 168, 168⟩ ⟨true, [], [], []⟩ 100 124 "abc"
      ⟨"sin filtros", 10, 2, 3, 5, 20, 1000⟩ rfl).2⟩

/-- C8: an unconfigured URL or token, or a failed connection, leaves the
cache disabled; and on a disabled cache every read operation returns a miss
(`None` or the empty mapping) and every write operation returns the state
unchanged.  All operations are total functions, so nothing propagates to
the caller. -/
theorem claim8_disabled_cache_noop :
    (∀ (tok : Option String) (ok : Bool),
        (Cache.connect_cache none tok ok).enabled = false)
    ∧ (∀ (url : Option String) (ok : Bool),
        (Cache.connect_cache url none ok).enabled = false)
    ∧ (∀ (url tok : Option String),
        (Cache.connect_cache url tok false).enabled = false)
    ∧ (∀ (st : Cache.CacheState), st.enabled = false →
        (∀ fh t, Cache.get_estadisticas_cached st fh t = none)
        ∧ (∀ idc t, Cache.get_analisis_ligero st idc t = none)
        ∧ (∀ ids t, Cache.get_analisis_ligero_batch st ids t = [])
        ∧ (∀ idc t, Cache.get_analisis_detallado st idc t = none)
        ∧ Cache.get_cache_stats st = []
        ∧ (∀ cfg T fh row, Cache.save_estadisticas cfg st T fh row = st)
        ∧ (∀ cfg T idc row, Cache.save_analisis_ligero cfg st T idc row = st)
        ∧ (∀ cfg T lst, Cache.save_analisis_ligero_batch cfg st T lst = st)
        ∧ (∀ cfg T idc row, Cache.save_analisis_detallado cfg st T idc row = st)
        ∧ (∀ t, Cache.cleanup_expired st t = st)) := by
  refine ⟨?_, ?_, ?_, ?_⟩
  · intro tok ok; cases tok <;> rfl
  · intro url ok; cases url <;> rfl
  · intro url tok; cases url <;> cases tok <;> rfl
  · intro st h
    refine ⟨?_, ?_, ?_, ?_, ?_, ?_, ?_, ?_, ?_, ?_⟩ <;>
      intros <;>
      simp [Cache.get_estadisticas_cached, Cache.get_analisis_ligero,
        Cache.get_analisis_ligero_batch, Cache.get_analisis_detallado,
        Cache.get_cache_stats, Cache.save_estadisticas,
        Cache.save_analisis_ligero, Cache.save_analisis_ligero_batch,
        Cache.save_analisis_detallado, Cache.cleanup_expired, h]

/-- Witness for C8: the state produced by `_connect` without configured
credentials is disabled, and on it a concrete read misses and a concrete
write is an identity. -/
theorem claim8_disabled_cache_noop_witness :
    (Cache.connect_cache none none true).enabled = false
    ∧ Cache.get_estadisticas_cached (Cache.connect_cache none none true) "abc" 0 = none
    ∧ Cache.save_analisis_ligero ⟨1, 7, 7⟩ (Cache.connect_cache none none true) 0 "c1"
        ⟨"Entidad", 1000, "2025-01-01", "Bajo", 10, none, none⟩
      = Cache.connect_cache none none true :=
  ⟨claim8_disabled_cache_noop.1 none true,
   (claim8_disabled_cache_noop.2.2.2 (Cache.connect_cache none none true) rfl).1 "abc" 0,
   (claim8_disabled_cache_noop.2.2.2 (Cache.connect_cache none none true) rfl).2.2.2.2.2.2.1
     ⟨1, 7, 7⟩ 0 "c1" ⟨"Entidad", 1000, "2025-01-01", "Bajo", 10, none, none⟩⟩

/-- C9 counterexample: the fast-path analysis of analyzer.py emits its
`Detalle_SHAP` in feature-column order, not sorted: with a loaded explainer
returning weights (0.1, 0.5) the returned attribution list is
[("Z-Score Valor", 0.1), ("Valor Logaritmo", 0.5)], which is not in
descending absolute-weight order.  So "the attribution list returned with
every analysis is sorted" fails on this analysis. -/
theorem claim9_attribution_counterexample :
    ¬ ((Analyzer.analizar_contrato_ml_solo motorShapDemo
        contratoZ4).detalleShap.Sorted Engine.pesoGe) := by
  intro h
  have hd : (Analyzer.analizar_contrato_ml_solo motorShapDemo
      contratoZ4).detalleShap
      = [("Z-Score Valor", 1/10), ("Valor Logaritmo", 1/2)] := rfl
  rw [hd] at h
  have hrel : Engine.pesoGe ("Z-Score Valor", 1/10) ("Valor Logaritmo", 1/2) :=
    (List.sorted_cons.mp h).1 _ (by simp)
  have habs : |(1/2 : ℚ)| ≤ |(1/10 : ℚ)| := hrel
  rw [abs_of_nonneg (by norm_num), abs_of_nonneg (by norm_num)] at habs
  linarith

/-- C9 amended: the attribution lists that are sorted by absolute weight
descending are the engine's `Detalle_SHAP` (sorted at engine.py line 307)
and the service layer's public SHAP list (sorted at contract_service.py
line 208); the analyzer's own fast-path `Detalle_SHAP` stays in
feature-column order and is only sorted at the service layer before
exposure.  On failure (explainer absent, explainer error, or — in the
engine — model absent) the attribution list is the empty list, and the
attribution outcome never influences the scores (scoring is a total
function not reading the SHAP state). -/
theorem claim9_attribution_sorted_or_empty :
    (∀ (em : Engine.RadarColInferencia) (c : Contrato),
      (Engine.analizar_contrato em c).detalleShap.Sorted Engine.pesoGe)
    ∧ (∀ (descripcionDe actualDe : String → String)
        (items : List (String × ℚ)),
      (Service.construir_shap_values descripcionDe actualDe items).Sorted
        Service.shapGe)
    ∧ (∀ (m : Analyzer.RadarColInferencia) (c : Contrato),
      m.usarShap = false ∨ m.shapExplainer c = none →
      (Analyzer.analizar_contrato_ml_solo m c).detalleShap = [])
    ∧ (∀ (em : Engine.RadarColInferencia) (c : Contrato),
      em.usarShap = false ∨ em.isoForest = none →
      (Engine.analizar_contrato em c).detalleShap = [])
    ∧ (∀ (m : Analyzer.RadarColInferencia) (c : Contrato) (b : Bool)
        (sh : Contrato → Option (List ℚ)),
      (Analyzer.analizar_contrato_ml_solo
        { m with usarShap := b, shapExplainer := sh } c).metaData
        = (Analyzer.analizar_contrato_ml_solo m c).metaData) := by
  refine ⟨?_, ?_, ?_, ?_, ?_⟩
  · intro em c
    show (Engine.datos_grafica em c).Sorted Engine.pesoGe
    unfold Engine.datos_grafica
    by_cases hc : (em.usarShap && em.isoForest.isSome) = true
    · simp only [hc, if_true]
      exact List.sorted_insertionSort Engine.pesoGe _
    · simp only [hc, if_false]
      exact List.sorted_nil
  · intro descripcionDe actualDe items
    unfold Service.construir_shap_values
    exact List.sorted_insertionSort Service.shapGe _
  · intro m c h
    show Analyzer.shap_values m c = []
    rcases h with h | h <;> simp [Analyzer.shap_values, h]
  · intro em c h
    show Engine.datos_grafica em c = []
    rcases h with h | h <;> simp [Engine.datos_grafica, h]
  · intro m c b sh
    rfl

/-- Witness for C9 (amended): with the explainer disabled the analyzer's
attribution list is empty, and with the explainer failing it is empty
too. -/
theorem claim9_attribution_sorted_or_empty_witness :
    (Analyzer.analizar_contrato_ml_solo motorDegradado contratoZ4).detalleShap = []
    ∧ (Engine.analizar_contrato engineDegradado contratoZ4).detalleShap = [] :=
  ⟨claim9_attribution_sorted_or_empty.2.2.1 motorDegradado contratoZ4 (Or.inl rfl),
   claim9_attribution_sorted_or_empty.2.2.2.1 engineDegradado contratoZ4 (Or.inl rfl)⟩

end RadarCol
